import Mathlib

/-!
Shallow embedding of the KFDtool-Pro P25 KFD core (kfd_protocol.cpp,
twi_hal.cpp, p25_defs.h) and proofs about the claims of its specification.

Bytes are modelled as `Nat` values below 256; byte buffers as `List Nat`.
Machine arithmetic on `uint8_t` / `uint16_t` is rendered with explicit
`% 256` / `% 65536`, `/ 256` for shifts, and `^^^` for XOR, exactly where
the C++ expressions truncate.
-/

set_option maxRecDepth 100000

namespace KFD

/-- CRC-16 table from TIA 102.AACD-A Annex A, copied from `crc16Table` in
`kfd_protocol.cpp`. -/
def crc16Table : List Nat := [
  0x0000, 0x1189, 0x2312, 0x329B, 0x4624, 0x57AD, 0x6536, 0x74BF,
  0x8C48, 0x9DC1, 0xAF5A, 0xBED3, 0xCA6C, 0xDBE5, 0xE97E, 0xF8F7,
  0x1081, 0x0108, 0x3393, 0x221A, 0x56A5, 0x472C, 0x75B7, 0x643E,
  0x9CC9, 0x8D40, 0xBFDB, 0xAE52, 0xDAED, 0xCB64, 0xF9FF, 0xE876,
  0x2102, 0x308B, 0x0210, 0x1399, 0x6726, 0x76AF, 0x4434, 0x55BD,
  0xAD4A, 0xBCC3, 0x8E58, 0x9FD1, 0xEB6E, 0xFAE7, 0xC87C, 0xD9F5,
  0x3183, 0x200A, 0x1291, 0x0318, 0x77A7, 0x662E, 0x54B5, 0x453C,
  0xBDCB, 0xAC42, 0x9ED9, 0x8F50, 0xFBEF, 0xEA66, 0xD8FD, 0xC974,
  0x4204, 0x538D, 0x6116, 0x709F, 0x0420, 0x15A9, 0x2732, 0x36BB,
  0xCE4C, 0xDFC5, 0xED5E, 0xFCD7, 0x8868, 0x99E1, 0xAB7A, 0xBAF3,
  0x5285, 0x430C, 0x7197, 0x601E, 0x14A1, 0x0528, 0x37B3, 0x263A,
  0xDECD, 0xCF44, 0xFDDF, 0xEC56, 0x98E9, 0x8960, 0xBBFB, 0xAA72,
  0x6306, 0x728F, 0x4014, 0x519D, 0x2522, 0x34AB, 0x0630, 0x17B9,
  0xEF4E, 0xFEC7, 0xCC5C, 0xDDD5, 0xA96A, 0xB8E3, 0x8A78, 0x9BF1,
  0x7387, 0x620E, 0x5095, 0x411C, 0x35A3, 0x242A, 0x16B1, 0x0738,
  0xFFCF, 0xEE46, 0xDCDD, 0xCD54, 0xB9EB, 0xA862, 0x9AF9, 0x8B70,
  0x8408, 0x9581, 0xA71A, 0xB693, 0xC22C, 0xD3A5, 0xE13E, 0xF0B7,
  0x0840, 0x19C9, 0x2B52, 0x3ADB, 0x4E64, 0x5FED, 0x6D76, 0x7CFF,
  0x9489, 0x8500, 0xB79B, 0xA612, 0xD2AD, 0xC324, 0xF1BF, 0xE036,
  0x18C1, 0x0948, 0x3BD3, 0x2A5A, 0x5EE5, 0x4F6C, 0x7DF7, 0x6C7E,
  0xA50A, 0xB483, 0x8618, 0x9791, 0xE32E, 0xF2A7, 0xC03C, 0xD1B5,
  0x2942, 0x38CB, 0x0A50, 0x1BD9, 0x6F66, 0x7EEF, 0x4C74, 0x5DFD,
  0xB58B, 0xA402, 0x9699, 0x8710, 0xF3AF, 0xE226, 0xD0BD, 0xC134,
  0x39C3, 0x284A, 0x1AD1, 0x0B58, 0x7FE7, 0x6E6E, 0x5CF5, 0x4D7C,
  0xC60C, 0xD785, 0xE51E, 0xF497, 0x8028, 0x91A1, 0xA33A, 0xB2B3,
  0x4A44, 0x5BCD, 0x6956, 0x78DF, 0x0C60, 0x1DE9, 0x2F72, 0x3EFB,
  0xD68D, 0xC704, 0xF59F, 0xE416, 0x90A9, 0x8120, 0xB3BB, 0xA232,
  0x5AC5, 0x4B4C, 0x79D7, 0x685E, 0x1CE1, 0x0D68, 0x3FF3, 0x2E7A,
  0xE70E, 0xF687, 0xC41C, 0xD595, 0xA12A, 0xB0A3, 0x8238, 0x93B1,
  0x6B46, 0x7ACF, 0x4854, 0x59DD, 0x2D62, 0x3CEB, 0x0E70, 0x1FF9,
  0xF78F, 0xE606, 0xD49D, 0xC514, 0xB1AB, 0xA022, 0x92B9, 0x8330,
  0x7BC7, 0x6A4E, 0x58D5, 0x495C, 0x3DE3, 0x2C6A, 0x1EF1, 0x0F78]

/-- One step of `P25::calculateCrc16`: the loop body
`crc = crc16Table[data[i] ^ (crc & 0xFF)] ^ (crc >> 8)`. -/
def crc16Step (crc b : Nat) : Nat :=
  (crc16Table.getD (b ^^^ (crc % 256)) 0) ^^^ (crc / 256)

/-- P25::calculateCrc16 from `kfd_protocol.cpp`: table-driven CRC-16 with
initial value 0xFFFF and no final XOR. -/
def calculateCrc16 (data : List Nat) : Nat :=
  data.foldl crc16Step 0xFFFF

/-- Loop of `TWI_HAL::isEvenParity`: the number of set bits among the 8 low
bits of a byte (`for i in 0..7: if (byte & (1 << i)) ones++`). -/
def onesCount (b : Nat) : Nat :=
  (List.range 8).countP (fun i => b.testBit i)

/-- TWI_HAL::isEvenParity from `twi_hal.cpp`: true when the number of set
bits of the byte is even (`(ones % 2) == 0`). -/
def isEvenParity (b : Nat) : Bool :=
  onesCount b % 2 = 0

/-- Parity bit placed in the transmit shift register by `TWI_HAL::sendByte`
(and identically by `sendBytesFast`): `needParity = !isEvenParity(byte)`,
and bit 0x100 of the frame is set exactly when `needParity` holds, so the
transmitted parity bit is 1 iff the byte's popcount is odd. -/
def parityBit (b : Nat) : Nat :=
  if isEvenParity b then 0 else 1

/-- P25::getKeyLength from `p25_defs.h`: expected key-material length per
algorithm id, 0 for algorithms with no fixed length. -/
def getKeyLength (algo : Nat) : Nat :=
  if algo = 0x81 then 8
  else if algo = 0x82 then 16
  else if algo = 0x83 then 24
  else if algo = 0x85 then 16
  else if algo = 0x84 then 32
  else if algo = 0x86 then 32
  else if algo = 0x9F then 13
  else if algo = 0xAA then 5
  else 0

/-- P25::validateKey from `kfd_protocol.cpp`:
`expected == 0 || key.size() == expected`. -/
def validateKey (key : List Nat) (algo : Nat) : Bool :=
  let expected := getKeyLength algo
  expected = 0 || key.length = expected

/-- P25::KeyItem from `p25_defs.h` (the fields the protocol layer reads). -/
structure KeyItem where
  keysetId : Nat
  sln : Nat
  keyId : Nat
  algorithmId : Nat
  key : List Nat
  isKek : Bool
  erase : Bool

/-- KFDProtocol::buildModifyKeyCommand (single-key overload) from
`kfd_protocol.cpp`: the ModifyKeyCommand body laid out byte by byte. -/
def buildModifyKeyCommand (k : KeyItem) : List Nat :=
  [0x00, 0x00, 0x80, 0x00, 0x00,
   k.keysetId % 256,
   k.algorithmId,
   k.key.length % 256,
   0x01,
   if k.erase then 0x20 else 0x00,
   (k.sln / 256) % 256, k.sln % 256,
   (k.keyId / 256) % 256, k.keyId % 256] ++ k.key

/-- Inner KMM built at the top of `KFDProtocol::buildKmmFrame`: message id,
2-byte big-endian message length `7 + body length`, message format byte,
destination RSI `FF FF FF`, source RSI `FF FF FF`, then the body.
`usePreamble` is the constant `false` in the source, so the inner KMM is
used unmodified. -/
def buildInnerKmm (kmmBody : List Nat) (messageId responseKind : Nat) :
    List Nat :=
  let messageLength := 7 + kmmBody.length
  [messageId, (messageLength / 256) % 256, messageLength % 256,
   responseKind, 0xFF, 0xFF, 0xFF, 0xFF, 0xFF, 0xFF] ++ kmmBody

/-- TWI body assembled in `KFDProtocol::buildKmmFrame`: control byte 0x00,
destination RSI `FF FF FF`, then the inner KMM. The CRC is computed over
exactly these bytes. -/
def twiBody (kmmBody : List Nat) (messageId responseKind : Nat) : List Nat :=
  [0x00, 0xFF, 0xFF, 0xFF] ++ buildInnerKmm kmmBody messageId responseKind

/-- KFDProtocol::buildKmmFrame from `kfd_protocol.cpp`: opcode 0xC2, 2-byte
big-endian length = TWI-body length + 2, the TWI body, then the CRC low
byte first and high byte second. -/
def buildKmmFrame (kmmBody : List Nat) (messageId responseKind : Nat) :
    List Nat :=
  let tb := twiBody kmmBody messageId responseKind
  let crc := calculateCrc16 tb
  let length := tb.length + 2
  [0xC2, (length / 256) % 256, length % 256] ++ tb ++
    [crc % 256, (crc / 256) % 256]

/-- The one-argument `KFDProtocol::buildKmmFrame` convenience wrapper: it
stamps every body with message id `P25::MSG_MODIFY_KEY_CMD` (0x04) and
response kind 0xC0. `sendKmm` routes every outbound KMM through it. -/
def buildKmmFrameDefault (kmmBody : List Nat) : List Nat :=
  buildKmmFrame kmmBody 0x04 0xC0

/-- KFDProtocol::buildZeroizeCommand from `kfd_protocol.cpp`: the single
byte `P25::MSG_ZEROIZE_CMD` (0x0A), returned as the KMM body. -/
def buildZeroizeCommand : List Nat := [0x0A]

/-- The frame `KFDProtocol::eraseAllKeys` puts on the wire: it hands
`buildZeroizeCommand()` to `sendKmm`, which wraps it with the one-argument
`buildKmmFrame` wrapper. -/
def eraseAllFrame : List Nat := buildKmmFrameDefault buildZeroizeCommand

/-- KFDProtocol::receiveKmm from `kfd_protocol.cpp`, as a function of the
inbound byte stream. Each `receiveByte` call takes the next stream byte;
an exhausted stream is a receive timeout. Mirrors the source: a first byte
0xC3 collects trailing bytes (stopping once more than 100 are buffered)
and returns the raw buffer as a success; any other byte that is not 0xC2
fails; for 0xC2 the 2-byte big-endian length must lie in [6, 512] and that
many body bytes must arrive, then for length > 6 the control + destination
RSI prefix (4 bytes) and the trailing CRC (2 bytes) are stripped, while
for length = 6 the whole body is returned. The CRC bytes are never
recomputed or compared. -/
def receiveKmm (stream : List Nat) : Option (List Nat) :=
  match stream with
  | [] => none
  | opcode :: rest =>
    if opcode = 0xC3 then
      some (opcode :: rest.take 100)
    else if opcode ≠ 0xC2 then
      none
    else
      match rest with
      | lenHi :: lenLo :: rest2 =>
        let len := lenHi * 256 + lenLo
        if len < 6 ∨ 512 < len then none
        else if rest2.length < len then none
        else
          let body := rest2.take len
          if 6 < len then some ((body.take (len - 2)).drop 4)
          else some body
      | _ => none

/-- KFDProtocol::DeviceType values a successful session can report. -/
inductive PeerMode where
  | MR
  | KVL
deriving DecidableEq, Repr

/-- Classification of one handshake attempt's `receiveByte` outcome inside
`KFDProtocol::beginSession`: `some 0xD0` is accepted as MR mode, `some
0xD1` as KVL mode, and any other received byte or a timeout (`none`) falls
through to the retry path. -/
def decodeReady (r : Option Nat) : Option PeerMode :=
  match r with
  | some b =>
    if b = 0xD0 then some PeerMode.MR
    else if b = 0xD1 then some PeerMode.KVL
    else none
  | none => none

/-- Retry loop of `KFDProtocol::beginSession` (`for attempt = 1..3`). Each
iteration consumes one receive outcome (a missing list entry is a
timeout); on acceptance it returns the peer mode at once, otherwise it
performs one `delay(500)` and retries while attempts remain. The second
component counts the 500 ms delays executed. -/
def beginSessionLoop : Nat → List (Option Nat) → Option PeerMode × Nat
  | 0, _ => (none, 0)
  | fuel + 1, outcomes =>
    match decodeReady (outcomes.headD none) with
    | some m => (some m, 0)
    | none =>
      let r := beginSessionLoop fuel outcomes.tail
      (r.1, r.2 + 1)

/-- KFDProtocol::beginSession as a function of the per-attempt receive
outcomes: at most 3 total attempts. -/
def beginSession (outcomes : List (Option Nat)) : Option PeerMode × Nat :=
  beginSessionLoop 3 outcomes

/-- Result classification at the tail of `KFDProtocol::keyload`. -/
inductive KeyloadResult where
  | noSession
  | noResponse
  | emptyResponse
  | success
  | nak (status : Nat)
  | unexpected
deriving DecidableEq, Repr

/-- The `Result.success` flag of the C++ `Result` each `KeyloadResult`
constructor stands for. -/
def resultSuccess : KeyloadResult → Bool
  | KeyloadResult.success => true
  | _ => false

/-- Tail of `KFDProtocol::keyload`: an empty inner KMM is "Empty response";
message id 0x07 (`MSG_REKEY_ACK`) is success; message id 0x08
(`MSG_NEGATIVE_ACK`) is a failure whose status is the byte at offset 2
when the response has more than 2 bytes, else `STATUS_INVALID_MN` (0x0A);
anything else is "Unexpected response". -/
def classifyResponse (response : List Nat) : KeyloadResult :=
  match response with
  | [] => KeyloadResult.emptyResponse
  | b :: _ =>
    if b = 0x07 then KeyloadResult.success
    else if b = 0x08 then
      KeyloadResult.nak
        (if 2 < response.length then response.getD 2 0 else 0x0A)
    else KeyloadResult.unexpected

/-- Outcome of one `keyload` call: the classified result together with the
ModifyKey frame that was transmitted, if any. -/
structure KeyloadOutcome where
  result : KeyloadResult
  sentFrame : Option (List Nat)
deriving DecidableEq, Repr

/-- KFDProtocol::keyload from `kfd_protocol.cpp`, as a function of the key,
the handshake receive outcomes, and the inbound byte stream of the
response. If `beginSession` fails the call returns at once and nothing is
sent. Otherwise the ModifyKey frame for the key is built and transmitted
unconditionally (the source performs no key-length validation), the
response is read with `receiveKmm`, and the result is classified. -/
def keyload (key : KeyItem) (sessionOutcomes : List (Option Nat))
    (rxStream : List Nat) : KeyloadOutcome :=
  match (beginSession sessionOutcomes).1 with
  | none => ⟨KeyloadResult.noSession, none⟩
  | some _ =>
    let frame := buildKmmFrameDefault (buildModifyKeyCommand key)
    match receiveKmm rxStream with
    | none => ⟨KeyloadResult.noResponse, some frame⟩
    | some response => ⟨classifyResponse response, some frame⟩

/-- Claim C1: the CRC-16 used for KMM frames starts at 0xFFFF, is driven by
the 256-entry TIA 102.AACD-A Annex-A table, applies no final complement
(the result of the final table step is returned as is), and maps the ASCII
bytes of "123456789" to 0x6F91, not to the complemented value 0x906E. -/
theorem crc16_selfcheck :
    calculateCrc16 [] = 0xFFFF ∧
    crc16Table.length = 256 ∧
    calculateCrc16 [0x31, 0x32, 0x33, 0x34, 0x35, 0x36, 0x37, 0x38, 0x39]
      = 0x6F91 ∧
    calculateCrc16 [0x31, 0x32, 0x33, 0x34, 0x35, 0x36, 0x37, 0x38, 0x39]
      ≠ 0x906E := by
  refine ⟨rfl, rfl, by decide, by decide⟩

lemma crc16Table_entry_lt : ∀ x ∈ crc16Table, x < 65536 := by decide

lemma crc16Table_getD_lt (i : Nat) : crc16Table.getD i 0 < 65536 := by
  rcases lt_or_le i crc16Table.length with h | h
  · rw [List.getD_eq_getElem _ _ h]
    exact crc16Table_entry_lt _ (List.getElem_mem h)
  · rw [List.getD_eq_default _ _ h]
    omega

lemma crc16Step_lt (crc b : Nat) (h : crc < 65536) :
    crc16Step crc b < 65536 := by
  have h1 := crc16Table_getD_lt (b ^^^ (crc % 256))
  have h2 : crc / 256 < 65536 := by omega
  have hp : (65536 : Nat) = 2 ^ 16 := by norm_num
  unfold crc16Step
  rw [hp] at h1 h2 ⊢
  exact Nat.xor_lt_two_pow h1 h2

lemma calculateCrc16_lt (data : List Nat) : calculateCrc16 data < 65536 := by
  suffices h : ∀ init : Nat, init < 65536 →
      data.foldl crc16Step init < 65536 by
    exact h 0xFFFF (by norm_num)
  induction data with
  | nil => intro init h; simpa using h
  | cons a t ih =>
    intro init h
    simpa using ih _ (crc16Step_lt init a h)

/-- Claim C2 counterexample: for the byte 0x00 the transmitted parity bit
is 0, not 1, even though popcount(0x00) = 0 is even, and the sum
popcount + parity bit is even, not odd. -/
theorem parity_bit_claim_false :
    onesCount 0 % 2 = 0 ∧ parityBit 0 = 0 ∧
      ¬ (onesCount 0 + parityBit 0) % 2 = 1 := by
  decide

/-- Claim C2 amended: for every byte, the parity bit `sendByte` transmits
makes popcount(b) + parity_bit(b) even (even parity): the parity bit is 1
exactly when popcount(b) is odd, not when it is even. -/
theorem parity_bit_even : ∀ b < 256,
    (onesCount b + parityBit b) % 2 = 0 ∧
      (parityBit b = 1 ↔ onesCount b % 2 = 1) := by
  decide

/-- Witness for the amended C2 at the byte 0x03. -/
theorem parity_bit_even_witness :
    (onesCount 3 + parityBit 3) % 2 = 0 ∧
      (parityBit 3 = 1 ↔ onesCount 3 % 2 = 1) :=
  parity_bit_even 3 (by decide)

/-- Claim C3: for every KMM body (within the 16-bit range of the length
fields), the outer 2-byte big-endian length field of the built frame
equals 4 + inner-KMM length + 2, which is the total frame length minus 3,
and the inner KMM's 2-byte big-endian message-length field equals
7 + body length. -/
theorem kmm_frame_length_fields :
    ∀ (body : List Nat) (mid rk : Nat), body.length + 16 < 65536 →
    (buildKmmFrame body mid rk).getD 1 0 * 256 +
        (buildKmmFrame body mid rk).getD 2 0
      = 4 + (buildInnerKmm body mid rk).length + 2 ∧
    (buildKmmFrame body mid rk).getD 1 0 * 256 +
        (buildKmmFrame body mid rk).getD 2 0
      = (buildKmmFrame body mid rk).length - 3 ∧
    (buildInnerKmm body mid rk).getD 1 0 * 256 +
        (buildInnerKmm body mid rk).getD 2 0
      = 7 + body.length := by
  intro body mid rk h
  simp only [buildKmmFrame, twiBody, buildInnerKmm, List.cons_append,
    List.nil_append, List.getD_cons_succ, List.getD_cons_zero,
    List.length_append, List.length_cons, List.length_nil]
  refine ⟨?_, ?_, ?_⟩ <;> omega

/-- Witness for C3 at the zeroize body `[0x0A]`. -/
theorem kmm_frame_length_fields_witness :
    (buildKmmFrame [0x0A] 0x04 0xC0).getD 1 0 * 256 +
        (buildKmmFrame [0x0A] 0x04 0xC0).getD 2 0
      = 4 + (buildInnerKmm [0x0A] 0x04 0xC0).length + 2 ∧
    (buildKmmFrame [0x0A] 0x04 0xC0).getD 1 0 * 256 +
        (buildKmmFrame [0x0A] 0x04 0xC0).getD 2 0
      = (buildKmmFrame [0x0A] 0x04 0xC0).length - 3 ∧
    (buildInnerKmm [0x0A] 0x04 0xC0).getD 1 0 * 256 +
        (buildInnerKmm [0x0A] 0x04 0xC0).getD 2 0
      = 7 + [0x0A].length :=
  kmm_frame_length_fields [0x0A] 0x04 0xC0 (by decide)

/-- Claim C4: every built KMM frame ends with the CRC-16 of the bytes from
offset 3 up to (excluding) the two trailing bytes — the control byte, the
destination RSI and the inner KMM — transmitted low byte first then high
byte, so that the two trailing bytes read little-endian equal that CRC. -/
theorem kmm_frame_crc_trailer (body : List Nat) (mid rk : Nat) :
    (buildKmmFrame body mid rk).length = body.length + 19 ∧
    ((buildKmmFrame body mid rk).drop 3).take (body.length + 14)
      = twiBody body mid rk ∧
    (buildKmmFrame body mid rk).getD (body.length + 17) 0
      = calculateCrc16 (twiBody body mid rk) % 256 ∧
    (buildKmmFrame body mid rk).getD (body.length + 18) 0
      = calculateCrc16 (twiBody body mid rk) / 256 ∧
    (buildKmmFrame body mid rk).getD (body.length + 17) 0 +
        256 * (buildKmmFrame body mid rk).getD (body.length + 18) 0
      = calculateCrc16 (twiBody body mid rk) := by
  have hlen : (twiBody body mid rk).length = body.length + 14 := by
    simp only [twiBody, buildInnerKmm, List.length_append, List.length_cons,
      List.cons_append, List.nil_append]
  have hcrc := calculateCrc16_lt (twiBody body mid rk)
  constructor
  · simp only [buildKmmFrame, List.length_append, List.length_cons,
      List.length_nil, hlen]
    omega
  constructor
  · simp only [buildKmmFrame]
    rw [show ([0xC2, ((twiBody body mid rk).length + 2) / 256 % 256,
        ((twiBody body mid rk).length + 2) % 256] : List Nat) ++
        twiBody body mid rk ++
        [calculateCrc16 (twiBody body mid rk) % 256,
         calculateCrc16 (twiBody body mid rk) / 256 % 256]
      = [0xC2, ((twiBody body mid rk).length + 2) / 256 % 256,
        ((twiBody body mid rk).length + 2) % 256] ++
        (twiBody body mid rk ++
        [calculateCrc16 (twiBody body mid rk) % 256,
         calculateCrc16 (twiBody body mid rk) / 256 % 256]) from
      List.append_assoc _ _ _]
    rw [List.drop_append_of_le_length (by simp)]
    simp only [List.length_cons, List.length_nil, List.drop_succ_cons,
      List.drop_zero, ← hlen]
    exact List.take_left _ _
  · have hget : ∀ j : Nat, (buildKmmFrame body mid rk).getD
        (body.length + 14 + 3 + j) 0
        = ([calculateCrc16 (twiBody body mid rk) % 256,
            calculateCrc16 (twiBody body mid rk) / 256 % 256] :
            List Nat).getD j 0 := by
      intro j
      simp only [buildKmmFrame]
      rw [List.append_assoc]
      rw [List.getD_append_right _ _ _ _ (by simp; omega)]
      rw [List.getD_append_right _ _ _ _ (by simp [hlen]; omega)]
      congr 1
      simp [hlen]
      omega
    have h17 := hget 0
    have h18 := hget 1
    rw [show body.length + 14 + 3 + 0 = body.length + 17 by omega] at h17
    rw [show body.length + 14 + 3 + 1 = body.length + 18 by omega] at h18
    simp only [List.getD_cons_zero, List.getD_cons_succ] at h17 h18
    refine ⟨h17, ?_, ?_⟩
    · rw [h18, Nat.mod_eq_of_lt (by omega)]
    · rw [h17, h18, Nat.mod_eq_of_lt (a := calculateCrc16 _ / 256) (by omega)]
      omega

/-- Claim C5: with a successful handshake and a received response, keyload
succeeds exactly when the received inner KMM's first byte (its message id)
is 0x07, and a negative-ack response (first byte 0x08) with more than two
bytes yields a failure carrying the OperationStatus byte at offset 2. -/
theorem keyload_response_classification
    (key : KeyItem) (so : List (Option Nat)) (rx : List Nat)
    (m : PeerMode) (r : List Nat)
    (hso : (beginSession so).1 = some m)
    (hrx : receiveKmm rx = some r) :
    (resultSuccess (keyload key so rx).result = true ↔ r.headD 0 = 0x07) ∧
    (r.headD 0 = 0x08 → 2 < r.length →
      (keyload key so rx).result = KeyloadResult.nak (r.getD 2 0)) := by
  simp only [keyload, hso, hrx]
  rcases r with _ | ⟨b, t⟩
  · simp [classifyResponse, resultSuccess]
  · by_cases h7 : b = 0x07
    · subst h7
      simp [classifyResponse, resultSuccess]
    · by_cases h8 : b = 0x08
      · subst h8
        constructor
        · simp [classifyResponse, resultSuccess]
        · intro _ hlen
          simp [classifyResponse, resultSuccess, hlen]
          intro hc
          exfalso
          simp only [List.length_cons] at hlen
          omega
      · simp [classifyResponse, resultSuccess, h7, h8]

/-- Witness for C5: a rekey-ack inner KMM `[0x07, 0x00, 0x04]` makes
keyload succeed, at a concrete key, handshake and response stream. -/
theorem keyload_response_classification_witness :
    (resultSuccess (keyload ⟨1, 202, 202, 0x84, [0x11], false, false⟩
        [some 0xD0]
        [0xC2, 0, 9, 0, 0xFF, 0xFF, 0xFF, 0x07, 0x00, 0x04, 0xAA, 0xBB]).result
        = true
      ↔ ([0x07, 0x00, 0x04] : List Nat).headD 0 = 0x07) ∧
    (([0x07, 0x00, 0x04] : List Nat).headD 0 = 0x08 →
      2 < ([0x07, 0x00, 0x04] : List Nat).length →
      (keyload ⟨1, 202, 202, 0x84, [0x11], false, false⟩
        [some 0xD0]
        [0xC2, 0, 9, 0, 0xFF, 0xFF, 0xFF, 0x07, 0x00, 0x04, 0xAA, 0xBB]).result
        = KeyloadResult.nak (([0x07, 0x00, 0x04] : List Nat).getD 2 0)) :=
  keyload_response_classification
    ⟨1, 202, 202, 0x84, [0x11], false, false⟩ [some 0xD0]
    [0xC2, 0, 9, 0, 0xFF, 0xFF, 0xFF, 0x07, 0x00, 0x04, 0xAA, 0xBB]
    PeerMode.MR [0x07, 0x00, 0x04] (by decide) (by decide)

/-- Claim C6: the handshake accepts only the ready bytes 0xD0 (MR) and 0xD1
(KVL); a 0xD0 or 0xD1 on any of the at most 3 attempts succeeds at once
with the matching peer mode, after one 500 ms retry delay per failed
attempt before it; if no attempt receives 0xD0 or 0xD1 the session fails
after 3 attempts and 3 delays, and a failed session makes keyload return
at once without transmitting any KMM frame. -/
theorem begin_session_policy :
    (∀ b : Nat, decodeReady (some b) ≠ none → b = 0xD0 ∨ b = 0xD1) ∧
    decodeReady (some 0xD0) = some PeerMode.MR ∧
    decodeReady (some 0xD1) = some PeerMode.KVL ∧
    decodeReady none = none ∧
    (∀ (pre rest : List (Option Nat)) (b : Option Nat) (m : PeerMode),
      pre.length < 3 →
      (∀ o ∈ pre, decodeReady o = none) →
      decodeReady b = some m →
      beginSession (pre ++ b :: rest) = (some m, pre.length)) ∧
    (∀ outcomes : List (Option Nat),
      (∀ o ∈ outcomes, decodeReady o = none) →
      beginSession outcomes = (none, 3)) ∧
    (∀ (key : KeyItem) (so : List (Option Nat)) (rx : List Nat),
      (beginSession so).1 = none →
      keyload key so rx = ⟨KeyloadResult.noSession, none⟩) := by
  refine ⟨?_, rfl, rfl, rfl, ?_, ?_, ?_⟩
  · intro b hb
    by_cases h0 : b = 0xD0
    · exact Or.inl h0
    · by_cases h1 : b = 0xD1
      · exact Or.inr h1
      · exact absurd (by simp [decodeReady, h0, h1]) hb
  · intro pre rest b m hlen hnone hb
    rcases pre with _ | ⟨o1, _ | ⟨o2, _ | ⟨o3, t⟩⟩⟩
    · simp [beginSession, beginSessionLoop, hb]
    · have h1 := hnone o1 (by simp)
      simp [beginSession, beginSessionLoop, h1, hb]
    · have h1 := hnone o1 (by simp)
      have h2 := hnone o2 (by simp)
      simp [beginSession, beginSessionLoop, h1, h2, hb]
    · simp only [List.length_cons] at hlen
      omega
  · intro os h
    have hh : ∀ l : List (Option Nat), (∀ o ∈ l, decodeReady o = none) →
        decodeReady (l.head?.getD none) = none := by
      intro l hl
      cases l with
      | nil => rfl
      | cons a t => simpa using hl a (by simp)
    have ht : ∀ l : List (Option Nat), (∀ o ∈ l, decodeReady o = none) →
        ∀ o ∈ l.tail, decodeReady o = none := by
      intro l hl o ho
      exact hl o (List.mem_of_mem_tail ho)
    have step : ∀ (fuel : Nat) (l : List (Option Nat)),
        (∀ o ∈ l, decodeReady o = none) →
        beginSessionLoop (fuel + 1) l
          = ((beginSessionLoop fuel l.tail).1,
             (beginSessionLoop fuel l.tail).2 + 1) := by
      intro fuel l hl
      simp [beginSessionLoop, hh l hl]
    have e3 := step 2 os h
    have e2 := step 1 os.tail (ht os h)
    have e1 := step 0 os.tail.tail (ht _ (ht os h))
    have e0 : beginSessionLoop 0 os.tail.tail.tail = (none, 0) := rfl
    show beginSessionLoop 3 os = (none, 3)
    rw [show (3 : Nat) = 2 + 1 from rfl, e3, e2, e1, e0]
  · intro key so rx h
    simp [keyload, h]

/-- Witness for C6: an unexpected byte 0x55 then 0xD0 succeeds on attempt
2 after one delay; three bad attempts fail with three delays; a failed
session yields a keyload outcome with nothing sent. -/
theorem begin_session_policy_witness :
    beginSession ([some 0x55] ++ some 0xD0 :: []) = (some PeerMode.MR, 1) ∧
    beginSession [some 0x55, none, some 0x99] = (none, 3) ∧
    keyload ⟨1, 202, 202, 0x84, [0x11], false, false⟩ [some 0x99] []
      = ⟨KeyloadResult.noSession, none⟩ := by
  refine ⟨?_, ?_, ?_⟩
  · exact begin_session_policy.2.2.2.2.1 [some 0x55] [] (some 0xD0)
      PeerMode.MR (by decide) (by decide) (by decide)
  · exact begin_session_policy.2.2.2.2.2.1 [some 0x55, none, some 0x99]
      (by decide)
  · exact begin_session_policy.2.2.2.2.2.2
      ⟨1, 202, 202, 0x84, [0x11], false, false⟩ [some 0x99] [] (by decide)

/-- Claim C7: the frame `eraseAllKeys` transmits is the zeroize body
`[0x0A]` wrapped by the one-argument `buildKmmFrame` wrapper, which stamps
message id `MSG_MODIFY_KEY_CMD`: the inner KMM's message id (frame offset
7) is 0x04, not 0x0A, and its message-length field is 8 (body `[0x0A]`),
not 7 — the code contradicts the zeroize layout its own definitions
(`MSG_ZEROIZE_CMD` = 0x0A as zeroize message id) describe. -/
theorem erase_all_frame_message_id :
    buildZeroizeCommand = [0x0A] ∧
    eraseAllFrame
      = [0xC2, 0x00, 0x11, 0x00, 0xFF, 0xFF, 0xFF, 0x04, 0x00, 0x08,
         0xC0, 0xFF, 0xFF, 0xFF, 0xFF, 0xFF, 0xFF, 0x0A, 0xB9, 0x80] ∧
    eraseAllFrame.getD 7 0 = 0x04 ∧
    eraseAllFrame.getD 8 0 * 256 + eraseAllFrame.getD 9 0 = 8 ∧
    eraseAllFrame.getD 7 0 ≠ 0x0A := by
  refine ⟨rfl, by decide, by decide, by decide, by decide⟩

/-- Claim C8 counterexample: an AES-256 KeyItem (algorithm id 0x84,
expected length 32) with empty key material fails `P25::validateKey`, yet
keyload sends the ModifyKey frame anyway and even reports success when
the peer acks — it performs no key-length check at all. -/
theorem keyload_no_length_check :
    validateKey [] 0x84 = false ∧
    getKeyLength 0x84 = 32 ∧
    (keyload ⟨1, 202, 202, 0x84, [], false, false⟩ [some 0xD0]
        [0xC2, 0, 9, 0, 0xFF, 0xFF, 0xFF, 0x07, 0x00, 0x04, 0xAA, 0xBB]).result
      = KeyloadResult.success ∧
    (keyload ⟨1, 202, 202, 0x84, [], false, false⟩ [some 0xD0]
        [0xC2, 0, 9, 0, 0xFF, 0xFF, 0xFF, 0x07, 0x00, 0x04, 0xAA, 0xBB]).sentFrame
      ≠ none := by
  refine ⟨by decide, by decide, by decide, by decide⟩

/-- Claim C8 amended: `P25::validateKey` returns false exactly for a
fixed-length algorithm (0x81–0x86, 0x9F, 0xAA) with mismatched key
material, and performs no check when the expected length is 0 (0x80 and
unlisted algorithms); but keyload never invokes it — after a successful
handshake the ModifyKey frame is always built and transmitted, whatever
the key length. -/
theorem validate_key_vs_keyload :
    (∀ (algo : Nat) (key : List Nat),
      (algo = 0x81 ∨ algo = 0x82 ∨ algo = 0x83 ∨ algo = 0x84 ∨
        algo = 0x85 ∨ algo = 0x86 ∨ algo = 0x9F ∨ algo = 0xAA) →
      (validateKey key algo = false ↔ key.length ≠ getKeyLength algo)) ∧
    (∀ (algo : Nat) (key : List Nat), getKeyLength algo = 0 →
      validateKey key algo = true) ∧
    (∀ (k : KeyItem) (so : List (Option Nat)) (rx : List Nat) (m : PeerMode),
      (beginSession so).1 = some m →
      (keyload k so rx).sentFrame
        = some (buildKmmFrameDefault (buildModifyKeyCommand k))) := by
  refine ⟨?_, ?_, ?_⟩
  · intro algo key halgo
    have hz : getKeyLength algo ≠ 0 := by
      rcases halgo with h | h | h | h | h | h | h | h <;> subst h <;> decide
    simp only [validateKey, Bool.or_eq_false_iff, decide_eq_false_iff_not]
    constructor
    · rintro ⟨_, hne⟩
      exact hne
    · intro hne
      exact ⟨hz, hne⟩
  · intro algo key hz
    simp [validateKey, hz]
  · intro k so rx m hso
    cases hr : receiveKmm rx <;> simp [keyload, hso, hr]

/-- Witness for the amended C8 on an AES-256 key of length 1. -/
theorem validate_key_vs_keyload_witness :
    (validateKey [0x11] 0x84 = false
      ↔ ([0x11] : List Nat).length ≠ getKeyLength 0x84) ∧
    validateKey [0x11] 0x42 = true ∧
    (keyload ⟨1, 202, 202, 0x84, [0x11], false, false⟩ [some 0xD1]
        []).sentFrame
      = some (buildKmmFrameDefault
          (buildModifyKeyCommand ⟨1, 202, 202, 0x84, [0x11], false, false⟩)) :=
  ⟨validate_key_vs_keyload.1 0x84 [0x11] (by decide),
   validate_key_vs_keyload.2.1 0x42 [0x11] (by decide),
   validate_key_vs_keyload.2.2
     ⟨1, 202, 202, 0x84, [0x11], false, false⟩ [some 0xD1] []
     PeerMode.KVL (by decide)⟩

/-- Claim C9 counterexample: a received first byte 0xC3 is not 0xC2, yet
receiveKmm reports success, returning the raw buffer as the KMM — it does
not "always return a failure for an unexpected opcode". -/
theorem receive_kmm_c3_success :
    (0xC3 : Nat) ≠ 0xC2 ∧
    receiveKmm [0xC3, 0x01, 0x80] = some [0xC3, 0x01, 0x80] := by
  refine ⟨by decide, by decide⟩

/-- Claim C9 amended: only the first byte 0xC3 takes the diagnostic path
that collects trailing bytes — bounded by the safety limit of 100, 101
bytes with the opcode — and that path returns the raw buffer as a
success; every other first byte that is not 0xC2 makes receiveKmm fail
(after at most 10 debug reads not modelled here). -/
theorem receive_kmm_unexpected_opcode :
    (∀ rest : List Nat,
      receiveKmm (0xC3 :: rest) = some (0xC3 :: rest.take 100)) ∧
    (∀ rest : List Nat, (0xC3 :: rest.take 100).length ≤ 101) ∧
    (∀ (op : Nat) (rest : List Nat), op ≠ 0xC2 → op ≠ 0xC3 →
      receiveKmm (op :: rest) = none) := by
  refine ⟨?_, ?_, ?_⟩
  · intro rest
    simp [receiveKmm]
  · intro rest
    simp only [List.length_cons, List.length_take]
    omega
  · intro op rest h2 h3
    simp [receiveKmm, h2, h3]

/-- Witness for the amended C9 at opcode 0xD7 and a C3 stream. -/
theorem receive_kmm_unexpected_opcode_witness :
    receiveKmm (0xC3 :: [0x01, 0x80]) = some (0xC3 :: [0x01, 0x80].take 100) ∧
    receiveKmm (0xD7 :: [0x01, 0x02]) = none :=
  ⟨receive_kmm_unexpected_opcode.1 [0x01, 0x80],
   receive_kmm_unexpected_opcode.2.2 0xD7 [0x01, 0x02] (by decide) (by decide)⟩

/-- Claim C10 counterexample: two inbound frames with opcode 0xC2 and the
length field 6 — inside the claim's range 6..512 — identical except for
their two trailing CRC bytes are both accepted, but the returned inner
KMMs differ, because at length 6 the whole body, CRC bytes included, is
returned. -/
theorem receive_kmm_len6_crc_dependent :
    (receiveKmm [0xC2, 0, 6, 0x00, 0xFF, 0xFF, 0xFF, 0x11, 0x22]).isSome
      = true ∧
    (receiveKmm [0xC2, 0, 6, 0x00, 0xFF, 0xFF, 0xFF, 0x33, 0x44]).isSome
      = true ∧
    receiveKmm [0xC2, 0, 6, 0x00, 0xFF, 0xFF, 0xFF, 0x11, 0x22]
      ≠ receiveKmm [0xC2, 0, 6, 0x00, 0xFF, 0xFF, 0xFF, 0x33, 0x44] := by
  refine ⟨by decide, by decide, by decide⟩

/-- Claim C10 amended: the CRC of an inbound frame is never recomputed or
compared; for any two 0xC2 frames with the same length field in 7..512
and bodies identical except for the two trailing CRC bytes, receiveKmm
succeeds on both and returns the same inner KMM, so a corrupted CRC is
accepted as valid. (With length field exactly 6 both frames are still
accepted, but the raw 6 bytes, CRC included, are returned.) -/
theorem receive_kmm_ignores_crc
    (hi lo : Nat) (b1 b2 : List Nat)
    (hgt : 6 < hi * 256 + lo) (hle : hi * 256 + lo ≤ 512)
    (hb1 : b1.length = hi * 256 + lo) (hb2 : b2.length = hi * 256 + lo)
    (heq : b1.take (hi * 256 + lo - 2) = b2.take (hi * 256 + lo - 2)) :
    receiveKmm (0xC2 :: hi :: lo :: b1)
      = some ((b1.take (hi * 256 + lo - 2)).drop 4) ∧
    receiveKmm (0xC2 :: hi :: lo :: b2)
      = receiveKmm (0xC2 :: hi :: lo :: b1) := by
  have key : ∀ b : List Nat, b.length = hi * 256 + lo →
      receiveKmm (0xC2 :: hi :: lo :: b)
        = some ((b.take (hi * 256 + lo - 2)).drop 4) := by
    intro b hb
    have hfull : b.take (hi * 256 + lo) = b := by
      rw [← hb]
      exact List.take_length b
    have c1 : ¬(hi * 256 + lo < 6 ∨ 512 < hi * 256 + lo) := by omega
    have c2 : ¬(b.length < hi * 256 + lo) := by omega
    simp [receiveKmm, c1, c2, hgt, hfull]
  refine ⟨key b1 hb1, ?_⟩
  rw [key b1 hb1, key b2 hb2, heq]

/-- Witness for the amended C10 with length field 7 and CRC bytes 0x11
0x22 versus 0x33 0x44. -/
theorem receive_kmm_ignores_crc_witness :
    receiveKmm (0xC2 :: 0 :: 7 :: [0x00, 0xFF, 0xFF, 0xFF, 0x09, 0x11, 0x22])
      = some ((([0x00, 0xFF, 0xFF, 0xFF, 0x09, 0x11, 0x22] : List Nat).take
          (0 * 256 + 7 - 2)).drop 4) ∧
    receiveKmm (0xC2 :: 0 :: 7 :: [0x00, 0xFF, 0xFF, 0xFF, 0x09, 0x33, 0x44])
      = receiveKmm
          (0xC2 :: 0 :: 7 :: [0x00, 0xFF, 0xFF, 0xFF, 0x09, 0x11, 0x22]) :=
  receive_kmm_ignores_crc 0 7
    [0x00, 0xFF, 0xFF, 0xFF, 0x09, 0x11, 0x22]
    [0x00, 0xFF, 0xFF, 0xFF, 0x09, 0x33, 0x44]
    (by decide) (by decide) (by decide) (by decide) (by decide)

end KFD
